import Mathlib

/-!
Verification of the Usage Quota & Billing-Cycle Engine of the
cantonese-scribe-pro repository.

The definitions below are a shallow embedding of the Python source:

* `src/api/app/services/usage_service.py` (`UsageService`):
  `record_usage`, `check_usage_limits`, `get_current_usage`,
  `perform_monthly_reset`, `_get_user_billing_period`,
  `_check_existing_usage`, `_insert_usage_record`,
  `_get_concurrent_processing_count`, and `PLAN_CONFIGS`;
* `src/api/app/services/monthly_reset_service.py`
  (`_find_users_requiring_reset`);
* `src/api/app/models/database.py` (`get_sql_schema`);
* `src/api/app/schemas/usage.py` (`UsageCheckRequest` validation);
* `src/api/app/api/v1/endpoints/usage.py` (`check_usage_limits` endpoint).

Python `datetime.date` values are modelled by `PyDate`; the constructor
`date(y, m, d)`, which raises `ValueError` on an invalid date, is modelled
by `mkDate` returning `Option PyDate`.  Database state is modelled as the
explicit list of `usage_tracking` rows (the ledger).  Exceptions are
modelled by `Option`/explicit error results.
-/

/-! ## Calendar model (Python `datetime.date`) -/

/-- A (possibly invalid) calendar date, mirroring Python's `date` fields. -/
structure PyDate where
  year : Int
  month : Nat
  day : Nat
deriving DecidableEq, Repr

/-- Gregorian leap-year rule used by Python's `datetime`. -/
def isLeapYear (y : Int) : Bool :=
  y % 4 == 0 && (y % 100 != 0 || y % 400 == 0)

/-- Number of days of month `m` of year `y` (months outside 1..12 are
rejected by `mkDate` before this value matters). -/
def daysInMonth (y : Int) (m : Nat) : Nat :=
  if m = 2 then (if isLeapYear y then 29 else 28)
  else if m = 4 ∨ m = 6 ∨ m = 9 ∨ m = 11 then 30
  else 31

/-- Validity of a `PyDate`, as enforced by Python's `date` constructor. -/
def PyDate.validDate (d : PyDate) : Prop :=
  1 ≤ d.month ∧ d.month ≤ 12 ∧ 1 ≤ d.day ∧ d.day ≤ daysInMonth d.year d.month

instance (d : PyDate) : Decidable d.validDate := by
  unfold PyDate.validDate; infer_instance

/-- Python's `date(y, m, d)`: yields the date, or fails (`ValueError`)
when the triple is not a valid calendar date. -/
def mkDate (y : Int) (m d : Nat) : Option PyDate :=
  if (PyDate.mk y m d).validDate then some ⟨y, m, d⟩ else none

/-- `dt - timedelta(days=1)` on a valid date. -/
def PyDate.predDay (dt : PyDate) : PyDate :=
  if 2 ≤ dt.day then ⟨dt.year, dt.month, dt.day - 1⟩
  else if dt.month = 1 then ⟨dt.year - 1, 12, 31⟩
  else ⟨dt.year, dt.month - 1, daysInMonth dt.year (dt.month - 1)⟩

/-- `dt + timedelta(days=1)` on a valid date. -/
def PyDate.succDay (dt : PyDate) : PyDate :=
  if dt.day < daysInMonth dt.year dt.month then ⟨dt.year, dt.month, dt.day + 1⟩
  else if dt.month = 12 then ⟨dt.year + 1, 1, 1⟩
  else ⟨dt.year, dt.month + 1, 1⟩

/-- Chronological `<=` on dates (lexicographic year, month, day). -/
def PyDate.chronLe (a b : PyDate) : Bool :=
  a.year < b.year ||
    (a.year == b.year &&
      (a.month < b.month || (a.month == b.month && a.day ≤ b.day)))

/-! ## Plan Registry (`UsageService.PLAN_CONFIGS`) -/

/-- `PlanLimits` from `schemas/usage.py` (the `features` list is carried
verbatim but is irrelevant to the quota logic). -/
structure PlanLimits where
  plan_name : String
  credits_per_month : Nat
  max_file_size_mb : Nat
  max_concurrent_jobs : Nat
  features : List String
  cost_per_credit : ℚ
  allows_overage : Bool
deriving DecidableEq, Repr

def freePlan : PlanLimits :=
  { plan_name := "free", credits_per_month := 30, max_file_size_mb := 25
    max_concurrent_jobs := 1
    features := ["Basic transcription", "Cantonese support", "SRT/VTT export"]
    cost_per_credit := 0, allows_overage := false }

def starterPlan : PlanLimits :=
  { plan_name := "starter", credits_per_month := 150, max_file_size_mb := 100
    max_concurrent_jobs := 2
    features := ["Everything in Free", "Higher accuracy", "Bulk processing", "CSV export"]
    cost_per_credit := 1/10, allows_overage := true }

def proPlan : PlanLimits :=
  { plan_name := "pro", credits_per_month := 500, max_file_size_mb := 500
    max_concurrent_jobs := 5
    features := ["Everything in Starter", "Priority processing", "Custom vocabulary", "API access"]
    cost_per_credit := 8/100, allows_overage := true }

def enterprisePlan : PlanLimits :=
  { plan_name := "enterprise", credits_per_month := 2000, max_file_size_mb := 1000
    max_concurrent_jobs := 10
    features := ["Everything in Pro", "Dedicated support", "Custom integrations", "SLA guarantee"]
    cost_per_credit := 5/100, allows_overage := true }

/-- `UsageService.PLAN_CONFIGS`. -/
def PLAN_CONFIGS : List (String × PlanLimits) :=
  [("free", freePlan), ("starter", starterPlan), ("pro", proPlan),
   ("enterprise", enterprisePlan)]

/-! ## Credit arithmetic -/

/-- `credits_required = max(1, (estimated_duration_seconds + 59) // 60)`
(line 244 of `usage_service.py`). -/
def creditsRequiredFor (estimated_duration_seconds : Nat) : Nat :=
  max 1 ((estimated_duration_seconds + 59) / 60)

/-- `credits = max(1, (duration_seconds + 59) // 60) if duration_seconds > 0 else 1`
(line 116 of `usage_service.py`). -/
def recordUsageCredits (duration_seconds : Nat) : Nat :=
  if duration_seconds > 0 then max 1 ((duration_seconds + 59) / 60) else 1

/-- Modelled from the spec's words for the refinement comparison of claim C4:
`credits_required == max(1, ceil(duration_s / 60))`, with the mathematical
ceiling of `d / 60` written out on naturals. -/
def specCeilCredits (duration_s : Nat) : Nat :=
  max 1 (if duration_s % 60 = 0 then duration_s / 60 else duration_s / 60 + 1)

/-! ## Usage Ledger (`usage_tracking` rows) -/

/-- One `usage_tracking` row, as written by
`UsageService._insert_usage_record` (the INSERT stores no credits column;
credits are recomputed by the aggregation queries). -/
structure UsageRecord where
  userId : Nat
  transcriptionId : Option Nat
  usage_type : String
  duration_seconds : Nat
  file_size_bytes : Nat
  cost : ℚ
  tokens_used : Nat
  usage_date : PyDate
  billing_period_start : Option PyDate
  billing_period_end : Option PyDate
deriving DecidableEq, Repr

/-- Credits contributed by one row in the aggregation query of
`get_current_usage`:
`CASE WHEN usage_type = 'transcription' THEN GREATEST(1, CEIL(duration_seconds / 60)) ELSE 1 END`. -/
def recordCredits (r : UsageRecord) : Nat :=
  if r.usage_type = "transcription" then max 1 ((r.duration_seconds + 59) / 60) else 1

/-- Row filter of the `get_current_usage` aggregation:
`user_id = :user_id AND billing_period_start = :period_start AND billing_period_end = :period_end`. -/
def inBillingPeriod (uid : Nat) (periodStart periodEnd : PyDate) (r : UsageRecord) : Bool :=
  decide (r.userId = uid ∧ r.billing_period_start = some periodStart ∧
    r.billing_period_end = some periodEnd)

/-- `credits_used` returned by the aggregation query of `get_current_usage`. -/
def ledgerCreditsUsed (uid : Nat) (periodStart periodEnd : PyDate)
    (ledger : List UsageRecord) : Nat :=
  ((ledger.filter (inBillingPeriod uid periodStart periodEnd)).map recordCredits).sum

/-! ## Billing Period Calculator (`UsageService._get_user_billing_period`) -/

/-- `_get_user_billing_period` (usage_service.py lines 644-671).  The
`date(...)` constructions are exactly those of the source; a `ValueError`
(invalid date) surfaces as `none`. -/
def get_user_billing_period (creationDate today : PyDate) : Option (PyDate × PyDate) :=
  match (if today.day ≥ creationDate.day then
      mkDate today.year today.month creationDate.day
    else if today.month = 1 then
      mkDate (today.year - 1) 12 creationDate.day
    else
      mkDate today.year (today.month - 1) creationDate.day) with
  | none => none
  | some startDate =>
    -- `end_date` is the next anniversary construction minus one day
    match (if startDate.month = 12 then
        mkDate (startDate.year + 1) 1 creationDate.day
      else
        mkDate startDate.year (startDate.month + 1) creationDate.day) with
    | none => none
    | some nextAnniversary => some (startDate, nextAnniversary.predDay)

/-! ## `UsageService.get_current_usage` (the fields the quota logic reads) -/

/-- The slice of `CurrentUsageResponse` consumed by `check_usage_limits`
and `perform_monthly_reset`. -/
structure CurrentUsage where
  credits_used : Nat
  credits_total : Nat
  is_near_limit : Bool
  is_at_limit : Bool
  concurrent_processing : Nat
  max_concurrent : Nat
deriving DecidableEq, Repr

/-- `get_current_usage` (usage_service.py lines 151-224), with the
`_get_concurrent_processing_count` query result supplied as
`concurrentCount`.  `is_near_limit` is `credits_used >= credits_total * 0.8`
and `is_at_limit` is `credits_used >= credits_total`. -/
def get_current_usage (plan : PlanLimits) (creationDate today : PyDate) (uid : Nat)
    (ledger : List UsageRecord) (concurrentCount : Nat) : Option CurrentUsage :=
  match get_user_billing_period creationDate today with
  | none => none
  | some bp =>
    let used := ledgerCreditsUsed uid bp.1 bp.2 ledger
    some { credits_used := used
           credits_total := plan.credits_per_month
           is_near_limit := decide ((used : ℚ) ≥ (plan.credits_per_month : ℚ) * 0.8)
           is_at_limit := decide (used ≥ plan.credits_per_month)
           concurrent_processing := concurrentCount
           max_concurrent := plan.max_concurrent_jobs }

/-! ## Quota Evaluator (`UsageService.check_usage_limits`) -/

/-- The blocking reasons produced by `check_usage_limits`, one constructor
per `blocking_reason` f-string of the source, carrying the numbers that
the string interpolates. -/
inductive BlockReason
  /-- `"File size ({file_size_mb}MB) exceeds limit ({max_file_size_mb}MB)"` -/
  | fileSize (file_size_mb : ℚ) (max_file_size_mb : Nat)
  /-- `"Insufficient credits. Need {credits_required}, have {credits_available}"` -/
  | insufficientCredits (credits_required : Nat) (credits_available : Int)
  /-- `"Maximum concurrent jobs ({max_concurrent}) reached"` -/
  | concurrentLimit (max_concurrent : Nat)
deriving DecidableEq, Repr

/-- The warnings produced by `check_usage_limits`, one constructor per
warning f-string of the source. -/
inductive UsageWarning
  /-- `"Will use {credits_required - credits_available} overage credits"` -/
  | overage (count : Int)
  /-- `"You're approaching your monthly limit"` -/
  | nearLimit
deriving DecidableEq, Repr

/-- `UsageCheckResponse` from `schemas/usage.py`. -/
structure UsageCheckResponse where
  can_process : Bool
  credits_required : Nat
  credits_available : Int
  credits_after : Int
  estimated_cost : ℚ
  blocking_reason : Option BlockReason
  warnings : List UsageWarning
  can_process_concurrent : Bool
  current_concurrent_jobs : Nat
  max_concurrent_jobs : Nat
deriving DecidableEq, Repr

/-- `file_size_mb = file_size_bytes / 1024 / 1024` (line 252). -/
def file_size_mb (file_size_bytes : Nat) : ℚ :=
  (file_size_bytes : ℚ) / 1024 / 1024

/-- `check_usage_limits` (usage_service.py lines 226-305).  The inputs
resolved from the database (plan, account creation date, ledger rows,
concurrent `processing` count) are explicit arguments; `none` models the
500 error path. -/
def check_usage_limits (plan : PlanLimits) (creationDate today : PyDate) (uid : Nat)
    (ledger : List UsageRecord) (concurrentCount : Nat)
    (estimated_duration_seconds : Nat) (file_size_bytes : Nat) :
    Option UsageCheckResponse :=
  match get_current_usage plan creationDate today uid ledger concurrentCount with
  | none => none
  | some currentUsage =>
  let credits_required := creditsRequiredFor estimated_duration_seconds
  let credits_available : Int :=
    (currentUsage.credits_total : Int) - (currentUsage.credits_used : Int)
  let credits_after : Int := credits_available - (credits_required : Int)
  let estimated_cost : ℚ := (credits_required : ℚ) * plan.cost_per_credit
  let sizeMb := file_size_mb file_size_bytes
  if sizeMb > (plan.max_file_size_mb : ℚ) then
    some { can_process := false
           credits_required := credits_required
           credits_available := credits_available
           credits_after := credits_after
           estimated_cost := estimated_cost
           blocking_reason := some (BlockReason.fileSize sizeMb plan.max_file_size_mb)
           warnings := []
           can_process_concurrent := false
           current_concurrent_jobs := currentUsage.concurrent_processing
           max_concurrent_jobs := currentUsage.max_concurrent }
  else
  let can_process_concurrent :=
    decide (currentUsage.concurrent_processing < currentUsage.max_concurrent)
  -- `warnings = []`, `blocking_reason = None`, `can_process = True`, then the
  -- credits branch (lines 271-284):
  let step1 : Bool × Option BlockReason × List UsageWarning :=
    if (credits_required : Int) > credits_available then
      if !plan.allows_overage then
        (false, some (BlockReason.insufficientCredits credits_required credits_available), [])
      else
        (true, none, [UsageWarning.overage ((credits_required : Int) - credits_available)])
    else
      (true, none, [])
  -- `if not can_process_concurrent:` overwrites both flags (lines 282-284):
  let step2 : Bool × Option BlockReason :=
    if !can_process_concurrent then
      (false, some (BlockReason.concurrentLimit currentUsage.max_concurrent))
    else
      (step1.1, step1.2.1)
  -- near-limit warning (lines 287-288):
  let warnings :=
    if currentUsage.is_near_limit && !currentUsage.is_at_limit then
      step1.2.2 ++ [UsageWarning.nearLimit]
    else
      step1.2.2
  some { can_process := step2.1 && can_process_concurrent
         credits_required := credits_required
         credits_available := credits_available
         credits_after := credits_after
         estimated_cost := estimated_cost
         blocking_reason := step2.2
         warnings := warnings
         can_process_concurrent := can_process_concurrent
         current_concurrent_jobs := currentUsage.concurrent_processing
         max_concurrent_jobs := currentUsage.max_concurrent }

/-! ## `UsageService.record_usage` -/

/-- Outcome of `record_usage` as seen by the caller: the returned record,
or an `HTTPException(status, detail)`. -/
inductive RecordResult
  | ok (record : UsageRecord)
  | err (status : Nat) (detail : String)
deriving DecidableEq, Repr

/-- `_check_existing_usage` (lines 673-677):
`SELECT id FROM usage_tracking WHERE transcription_id = :transcription_id`
followed by `fetchone() is not None`. -/
def check_existing_usage (ledger : List UsageRecord) (transcription_id : Nat) : Bool :=
  ledger.any fun r => decide (r.transcriptionId = some transcription_id)

/-- The row written by `_insert_usage_record` (lines 679-735). -/
def insertedUsageRecord (uid : Nat) (usage_type : String)
    (duration_seconds file_size_bytes : Nat) (cost : ℚ) (tokens_used : Nat)
    (transcription_id : Option Nat) (billingPeriod : PyDate × PyDate)
    (today : PyDate) : UsageRecord :=
  { userId := uid, transcriptionId := transcription_id, usage_type := usage_type
    duration_seconds := duration_seconds, file_size_bytes := file_size_bytes
    cost := cost, tokens_used := tokens_used, usage_date := today
    billing_period_start := some billingPeriod.1
    billing_period_end := some billingPeriod.2 }

/-- `record_usage` (usage_service.py lines 94-149), returning the ledger
after the call together with the result.

Exception flow of the source: every exception raised inside the
transaction body — including the `HTTPException(409, "Usage already
recorded for this transcription")` raised for a duplicate
`transcription_id`, and the `HTTPException(404)` / `ValueError` from the
billing-period lookup — is caught by the blanket `except Exception`
handler, which logs and raises `HTTPException(500, "Failed to record
usage")`; the transaction rolls back, so the ledger is unchanged on every
error path.  (The `except asyncpg.exceptions.UniqueViolationError` branch
that would produce a 409 can never fire: the schema declares no uniqueness
constraint on `transcription_id` — see `get_sql_schema` below.) -/
def record_usage (creationDate today : PyDate) (uid : Nat)
    (ledger : List UsageRecord) (usage_type : String)
    (duration_seconds file_size_bytes : Nat) (cost : ℚ) (tokens_used : Nat)
    (transcription_id : Option Nat) : List UsageRecord × RecordResult :=
  match get_user_billing_period creationDate today with
  | none => (ledger, .err 500 "Failed to record usage")
  | some billingPeriod =>
    let _credits := recordUsageCredits duration_seconds
    let dup :=
      match transcription_id with
      | some tid => check_existing_usage ledger tid
      | none => false
    if dup then
      (ledger, .err 500 "Failed to record usage")
    else
      let record := insertedUsageRecord uid usage_type duration_seconds
        file_size_bytes cost tokens_used transcription_id billingPeriod today
      (ledger ++ [record], .ok record)

/-! ## The store schema (`get_sql_schema`, database.py lines 232-317) -/

structure ColumnDef where
  name : String
  /-- `PRIMARY KEY` or `UNIQUE`. -/
  isUnique : Bool
deriving DecidableEq, Repr

structure TableDef where
  name : String
  columns : List ColumnDef
deriving DecidableEq, Repr

/-- The complete DDL returned by `get_sql_schema` (database.py lines
232-317), table by table and column by column; `isUnique` records the
`PRIMARY KEY` / `UNIQUE` markers.  This is the only schema the repository
defines; it contains no `usage_tracking` table and no uniqueness
constraint on any correlation-id column. -/
def get_sql_schema : List TableDef :=
  [ { name := "users"
      columns := [⟨"id", true⟩, ⟨"email", true⟩, ⟨"full_name", false⟩,
        ⟨"hashed_password", false⟩, ⟨"is_active", false⟩, ⟨"created_at", false⟩,
        ⟨"updated_at", false⟩, ⟨"total_processing_time", false⟩,
        ⟨"total_cost", false⟩, ⟨"files_processed", false⟩] }
  , { name := "user_files"
      columns := [⟨"id", true⟩, ⟨"user_id", false⟩, ⟨"original_filename", false⟩,
        ⟨"file_path", false⟩, ⟨"file_size", false⟩, ⟨"file_type", false⟩,
        ⟨"mime_type", false⟩, ⟨"file_hash", false⟩, ⟨"created_at", false⟩] }
  , { name := "transcription_jobs"
      columns := [⟨"id", true⟩, ⟨"user_id", false⟩, ⟨"file_id", false⟩,
        ⟨"youtube_url", false⟩, ⟨"options", false⟩, ⟨"status", false⟩,
        ⟨"created_at", false⟩, ⟨"started_at", false⟩, ⟨"completed_at", false⟩,
        ⟨"progress", false⟩, ⟨"error_message", false⟩, ⟨"result_data", false⟩,
        ⟨"cost", false⟩, ⟨"duration", false⟩, ⟨"processing_time", false⟩] }
  , { name := "export_files"
      columns := [⟨"id", true⟩, ⟨"job_id", false⟩, ⟨"user_id", false⟩,
        ⟨"format", false⟩, ⟨"filename", false⟩, ⟨"file_path", false⟩,
        ⟨"file_size", false⟩, ⟨"created_at", false⟩, ⟨"download_count", false⟩,
        ⟨"last_downloaded", false⟩] }
  , { name := "usage_logs"
      columns := [⟨"id", true⟩, ⟨"user_id", false⟩, ⟨"job_id", false⟩,
        ⟨"action", false⟩, ⟨"service", false⟩, ⟨"cost", false⟩,
        ⟨"duration", false⟩, ⟨"tokens_used", false⟩, ⟨"metadata", false⟩,
        ⟨"timestamp", false⟩] } ]

/-- Whether the schema declares a store-level uniqueness constraint on a
correlation-id column of a `usage_tracking` table. -/
def storeEnforcesCorrelationUniqueness (schema : List TableDef) : Bool :=
  schema.any fun t =>
    t.name == "usage_tracking" &&
      t.columns.any fun c =>
        (c.name == "transcription_id" || c.name == "correlation_id") && c.isUnique

/-- One interleaving of two concurrent `record_usage` transactions for the
same `transcription_id`: both `_check_existing_usage` SELECTs read the
initially committed ledger (check-then-insert, the time-of-check /
time-of-use window), then both INSERTs commit.  The store accepts both
inserts because `get_sql_schema` declares no uniqueness constraint on
`transcription_id`.  Returns the final committed ledger and whether each
call succeeded. -/
def interleavedRecordPair (creationDate today : PyDate) (uid : Nat)
    (ledger : List UsageRecord) (tid : Nat) (dur1 dur2 : Nat) :
    List UsageRecord × Bool × Bool :=
  match get_user_billing_period creationDate today with
  | none => (ledger, false, false)
  | some billingPeriod =>
    let pass1 := !check_existing_usage ledger tid
    let pass2 := !check_existing_usage ledger tid
    let l1 := if pass1 then
        ledger ++ [insertedUsageRecord uid "transcription" dur1 0 0 0 (some tid)
          billingPeriod today]
      else ledger
    let l2 := if pass2 then
        l1 ++ [insertedUsageRecord uid "transcription" dur2 0 0 0 (some tid)
          billingPeriod today]
      else l1
    (l2, pass1, pass2)

/-- Number of ledger rows carrying a given correlation id. -/
def correlationCount (ledger : List UsageRecord) (tid : Nat) : Nat :=
  (ledger.filter fun r => decide (r.transcriptionId = some tid)).length

/-! ## Monthly Reset (`UsageService.perform_monthly_reset`,
`MonthlyResetService._find_users_requiring_reset`) -/

/-- `MonthlyResetResponse` from `schemas/usage.py`. -/
structure MonthlyResetResponse where
  userId : Nat
  previous_credits_used : Nat
  new_credits_available : Nat
  reset_date : PyDate
  next_reset_date : PyDate
  billing_period_start : PyDate
  billing_period_end : PyDate
  reset_successful : Bool
  reset_reason : String
deriving DecidableEq, Repr

/-- The `next_reset` computation of `perform_monthly_reset`
(usage_service.py lines 529-540); the `date(...)` constructions are those
of the source and fail (`ValueError`) on invalid dates. -/
def computeNextReset (creationDate today : PyDate) : Option PyDate :=
  if today.day ≥ creationDate.day then
    match mkDate today.year today.month creationDate.day with
    | none => none
    | some nextReset =>
      if nextReset.chronLe today then
        if today.month = 12 then
          mkDate (today.year + 1) 1 creationDate.day
        else
          mkDate today.year (today.month + 1) creationDate.day
      else
        some nextReset
  else
    mkDate today.year today.month creationDate.day

/-- The archive UPDATE of `perform_monthly_reset` (lines 547-556):
`UPDATE usage_tracking SET billing_period_end = :today
 WHERE user_id = :user_id AND billing_period_end IS NULL`. -/
def archiveOpenPeriods (uid : Nat) (today : PyDate)
    (ledger : List UsageRecord) : List UsageRecord :=
  ledger.map fun r =>
    if r.userId = uid ∧ r.billing_period_end = none then
      { r with billing_period_end := some today }
    else r

/-- `perform_monthly_reset` (usage_service.py lines 503-578): reads the
current usage, computes the next reset date from the creation-date
anniversary, archives open-period rows, and returns the reset summary.
Any exception (user missing, invalid date) is caught by the blanket
handler and surfaces as `HTTPException(500)`, modelled by `none`; the
transaction rolls back, leaving the ledger unchanged. -/
def perform_monthly_reset (plan : PlanLimits) (creationDate today : PyDate)
    (uid : Nat) (ledger : List UsageRecord) (concurrentCount : Nat)
    (reason : String) : Option (List UsageRecord × MonthlyResetResponse) :=
  match get_current_usage plan creationDate today uid ledger concurrentCount with
  | none => none
  | some currentUsage =>
  match computeNextReset creationDate today with
  | none => none
  | some nextReset =>
  let billingStart := today
  let billingEnd := nextReset.predDay
  let ledgerAfter := archiveOpenPeriods uid today ledger
  some (ledgerAfter,
    { userId := uid
      previous_credits_used := currentUsage.credits_used
      new_credits_available := plan.credits_per_month
      reset_date := today
      next_reset_date := nextReset
      billing_period_start := billingStart
      billing_period_end := billingEnd
      reset_successful := true
      reset_reason := reason })

/-- A row of the `users` table as read by the reset scheduler. -/
structure UserRow where
  id : Nat
  createdAt : PyDate
  isActive : Bool
deriving DecidableEq, Repr

/-- The anniversary condition of `_find_users_requiring_reset`
(monthly_reset_service.py lines 163-173):
`EXTRACT(DAY FROM u.created_at) = EXTRACT(DAY FROM :today)` or the
month-end branch
`EXTRACT(DAY FROM u.created_at) > EXTRACT(DAY FROM (:today + INTERVAL '1 day'))
 AND EXTRACT(DAY FROM :today) = day of the last day of today's month`. -/
def anniversaryMatches (createdDay : Nat) (today : PyDate) : Bool :=
  createdDay == today.day ||
    (createdDay > today.succDay.day &&
      today.day == daysInMonth today.year today.month)

/-- The idempotency exclusion of `_find_users_requiring_reset` (lines
175-180): the user already has a ledger row with
`billing_period_start >= :today`. -/
def hasPeriodStartingToday (uid : Nat) (ledger : List UsageRecord)
    (today : PyDate) : Bool :=
  ledger.any fun r =>
    decide (r.userId = uid) &&
      match r.billing_period_start with
      | some s => today.chronLe s
      | none => false

/-- The WHERE clause of `_find_users_requiring_reset` for one user. -/
def requiresReset (u : UserRow) (ledger : List UsageRecord) (today : PyDate) : Bool :=
  u.isActive && anniversaryMatches u.createdAt.day today &&
    !hasPeriodStartingToday u.id ledger today

/-- `_find_users_requiring_reset` (monthly_reset_service.py lines 144-197):
the active users whose anniversary falls today, excluding users that
already have a ledger period starting today. -/
def find_users_requiring_reset (users : List UserRow)
    (ledger : List UsageRecord) (today : PyDate) : List UserRow :=
  users.filter fun u => requiresReset u ledger today

/-! ## Public usage-check endpoint (`schemas/usage.py`,
`api/v1/endpoints/usage.py`) -/

/-- The validation errors `UsageCheckRequest` can raise, one constructor
per pydantic constraint: `Field(..., ge=1)` on both fields, and the
`validate_file_size` validator with `max_size = 25 * 1024 * 1024`
(`"File size {v} bytes exceeds maximum of {max_size} bytes"`). -/
inductive RequestValidationError
  | durationBelowMinimum (v : Int)
  | fileSizeBelowMinimum (v : Int)
  | fileSizeAboveMaximum (v maxSize : Int)
deriving DecidableEq, Repr

/-- A validated `UsageCheckRequest` (schemas/usage.py lines 124-134). -/
structure UsageCheckRequest where
  estimated_duration_seconds : Nat
  file_size_bytes : Nat
deriving DecidableEq, Repr

/-- Pydantic validation of `UsageCheckRequest`: the `ge=1` bounds in field
order, then the `validate_file_size` validator, which rejects any
`file_size_bytes` above `25 * 1024 * 1024` regardless of the account's
plan. -/
def validateUsageCheckRequest (estimated_duration_seconds file_size_bytes : Int) :
    Except RequestValidationError UsageCheckRequest :=
  if estimated_duration_seconds < 1 then
    .error (.durationBelowMinimum estimated_duration_seconds)
  else if file_size_bytes < 1 then
    .error (.fileSizeBelowMinimum file_size_bytes)
  else if file_size_bytes > 25 * 1024 * 1024 then
    .error (.fileSizeAboveMaximum file_size_bytes (25 * 1024 * 1024))
  else
    .ok { estimated_duration_seconds := estimated_duration_seconds.toNat
          file_size_bytes := file_size_bytes.toNat }

/-- Failure modes of the `/usage/check` endpoint: a 422 validation error
(request never reaches the service) or the service's 500. -/
inductive EndpointError
  | validation (e : RequestValidationError)
  | internal
deriving DecidableEq, Repr

/-- The `POST /usage/check` endpoint (endpoints/usage.py lines 100-129):
FastAPI validates the payload against `UsageCheckRequest` first; only a
validated request is passed to `usage_service.check_usage_limits`. -/
def checkUsageEndpoint (plan : PlanLimits) (creationDate today : PyDate)
    (uid : Nat) (ledger : List UsageRecord) (concurrentCount : Nat)
    (estimated_duration_seconds file_size_bytes : Int) :
    Except EndpointError UsageCheckResponse :=
  match validateUsageCheckRequest estimated_duration_seconds file_size_bytes with
  | .error e => .error (.validation e)
  | .ok req =>
    match check_usage_limits plan creationDate today uid ledger concurrentCount
        req.estimated_duration_seconds req.file_size_bytes with
    | some resp => .ok resp
    | none => .error .internal

/-! ## Shared fixtures and helper lemmas -/

/-- A transcription ledger row without a correlation id, for concrete
states. -/
def transcriptionRow (uid dur : Nat) (ps pe : PyDate) : UsageRecord :=
  { userId := uid, transcriptionId := none, usage_type := "transcription"
    duration_seconds := dur, file_size_bytes := 0, cost := 0, tokens_used := 0
    usage_date := ps, billing_period_start := some ps, billing_period_end := some pe }

/-- A transcription ledger row carrying a correlation id, for concrete
states. -/
def transcriptionRowWithId (uid tid dur : Nat) (ps pe : PyDate) : UsageRecord :=
  { userId := uid, transcriptionId := some tid, usage_type := "transcription"
    duration_seconds := dur, file_size_bytes := 0, cost := 0, tokens_used := 0
    usage_date := ps, billing_period_start := some ps, billing_period_end := some pe }

lemma daysInMonth_ge_28 (y : Int) (m : Nat) : 28 ≤ daysInMonth y m := by
  unfold daysInMonth
  split
  · split <;> norm_num
  · split <;> norm_num

lemma mkDate_eq_some (y : Int) (m d : Nat) (h : (PyDate.mk y m d).validDate) :
    mkDate y m d = some ⟨y, m, d⟩ := by
  unfold mkDate
  rw [if_pos h]

lemma validDate_of_day_le_28 (y : Int) (m d : Nat)
    (h1 : 1 ≤ m) (h2 : m ≤ 12) (h3 : 1 ≤ d) (h4 : d ≤ 28) :
    (PyDate.mk y m d).validDate :=
  ⟨h1, h2, h3, le_trans h4 (daysInMonth_ge_28 y m)⟩

lemma mkDate_small (y : Int) (m d : Nat)
    (h1 : 1 ≤ m) (h2 : m ≤ 12) (h3 : 1 ≤ d) (h4 : d ≤ 28) :
    mkDate y m d = some ⟨y, m, d⟩ :=
  mkDate_eq_some y m d (validDate_of_day_le_28 y m d h1 h2 h3 h4)

lemma predDay_validDate (dt : PyDate) (h : dt.validDate) : dt.predDay.validDate := by
  obtain ⟨h1, h2, h3, h4⟩ := h
  unfold PyDate.predDay
  split
  · refine ⟨?_, ?_, ?_, ?_⟩ <;> dsimp only <;> omega
  · split
    · refine ⟨?_, ?_, ?_, ?_⟩ <;> dsimp only
      · norm_num
      · norm_num
      · norm_num
      · unfold daysInMonth; norm_num
    · refine ⟨?_, ?_, ?_, ?_⟩ <;> dsimp only
      · omega
      · omega
      · have := daysInMonth_ge_28 dt.year (dt.month - 1); omega
      · exact le_refl _

lemma chronLe_refl (a : PyDate) : a.chronLe a = true := by
  unfold PyDate.chronLe
  simp

/-! ## Claim C3 — billing-period calendar safety -/

/-- Claim C3 counterexample: the billing-period computation does not clamp
an anniversary day that is missing from the target month.  For an account
created on January 31, with today March 1 the start construction builds
February 31 (`ValueError`), and with today January 31 the end construction
builds February 31 (`ValueError`); in both cases the computation fails
instead of producing a clamped valid pair. -/
theorem billing_period_invalid_date_jan31 :
    get_user_billing_period ⟨2025, 1, 31⟩ ⟨2025, 3, 1⟩ = none ∧
    get_user_billing_period ⟨2025, 1, 31⟩ ⟨2025, 1, 31⟩ = none := by
  constructor <;> decide

/-- Helper: the billing-period computation succeeds with a valid pair
whenever the creation day-of-month is at most 28. -/
lemma billing_period_some_of_day_le_28 (cd today : PyDate)
    (hd1 : 1 ≤ cd.day) (hd28 : cd.day ≤ 28)
    (hm1 : 1 ≤ today.month) (hm12 : today.month ≤ 12) :
    ∃ s e, get_user_billing_period cd today = some (s, e) ∧
      s.validDate ∧ e.validDate ∧ s.day = cd.day := by
  unfold get_user_billing_period
  by_cases hA : today.day ≥ cd.day
  · rw [if_pos hA, mkDate_small today.year today.month cd.day hm1 hm12 hd1 hd28]
    by_cases h12 : today.month = 12
    · simp only [h12]
      rw [if_true,
        mkDate_small (today.year + 1) 1 cd.day (by norm_num) (by norm_num) hd1 hd28]
      exact ⟨_, _, rfl, validDate_of_day_le_28 _ _ _ (by norm_num) (by norm_num) hd1 hd28,
        predDay_validDate _ (validDate_of_day_le_28 _ _ _ (by norm_num) (by norm_num) hd1 hd28),
        rfl⟩
    · simp only []
      rw [if_neg h12,
        mkDate_small today.year (today.month + 1) cd.day (by omega) (by omega) hd1 hd28]
      exact ⟨_, _, rfl, validDate_of_day_le_28 _ _ _ hm1 hm12 hd1 hd28,
        predDay_validDate _ (validDate_of_day_le_28 _ _ _ (by omega) (by omega) hd1 hd28),
        rfl⟩
  · rw [if_neg hA]
    by_cases hJan : today.month = 1
    · rw [if_pos hJan,
        mkDate_small (today.year - 1) 12 cd.day (by norm_num) (by norm_num) hd1 hd28]
      simp only []
      rw [if_true,
        mkDate_small (today.year - 1 + 1) 1 cd.day (by norm_num) (by norm_num) hd1 hd28]
      exact ⟨_, _, rfl, validDate_of_day_le_28 _ _ _ (by norm_num) (by norm_num) hd1 hd28,
        predDay_validDate _ (validDate_of_day_le_28 _ _ _ (by norm_num) (by norm_num) hd1 hd28),
        rfl⟩
    · rw [if_neg hJan,
        mkDate_small today.year (today.month - 1) cd.day (by omega) (by omega) hd1 hd28]
      simp only []
      rw [if_neg (by omega : ¬ today.month - 1 = 12),
        mkDate_small today.year (today.month - 1 + 1) cd.day (by omega) (by omega) hd1 hd28]
      exact ⟨_, _, rfl, validDate_of_day_le_28 _ _ _ (by omega) (by omega) hd1 hd28,
        predDay_validDate _ (validDate_of_day_le_28 _ _ _ (by omega) (by omega) hd1 hd28),
        rfl⟩

/-- Claim C3, amended: when the account's creation day-of-month is at most
28 (so the anniversary day exists in every month), the billing-period
computation of `_get_user_billing_period` never hits an invalid date: it
returns a valid `(start, end)` pair whose start day is the anniversary
day.  When the creation day exceeds the days of the month the computation
must touch, the `date(...)` construction instead raises (see the
counterexample); the code never clamps. -/
theorem billing_period_valid_when_day_le_28 (cd today : PyDate)
    (hd1 : 1 ≤ cd.day) (hd28 : cd.day ≤ 28)
    (hm1 : 1 ≤ today.month) (hm12 : today.month ≤ 12) :
    ∃ s e, get_user_billing_period cd today = some (s, e) ∧
      s.validDate ∧ e.validDate ∧ s.day = cd.day :=
  billing_period_some_of_day_le_28 cd today hd1 hd28 hm1 hm12

/-- Witness for C3's amended theorem at a concrete account (created
2025-01-15, today 2025-03-10). -/
theorem billing_period_valid_when_day_le_28_witness :
    ∃ s e, get_user_billing_period ⟨2025, 1, 15⟩ ⟨2025, 3, 10⟩ = some (s, e) ∧
      s.validDate ∧ e.validDate ∧ s.day = (⟨2025, 1, 15⟩ : PyDate).day :=
  billing_period_valid_when_day_le_28 ⟨2025, 1, 15⟩ ⟨2025, 3, 10⟩
    (by norm_num) (by norm_num) (by norm_num) (by norm_num)

/-! ## Claim C4 — the credit formula -/

/-- Claim C4: for every duration (in seconds), the credits required
computed by `check_usage_limits` (`creditsRequiredFor`, the expression
`max(1, (duration + 59) // 60)` of line 244) and the credits charged by
`record_usage` (`recordUsageCredits`, line 116, including its branch that
charges 1 credit at duration 0) both equal the spec's
`max(1, ceil(duration / 60))`. -/
theorem credit_formula_matches_ceiling (duration_s : Nat) :
    creditsRequiredFor duration_s = specCeilCredits duration_s ∧
    recordUsageCredits duration_s = specCeilCredits duration_s := by
  constructor
  · unfold creditsRequiredFor specCeilCredits
    rcases Nat.eq_zero_or_pos (duration_s % 60) with h | h
    · rw [if_pos h]; omega
    · rw [if_neg (by omega)]; omega
  · unfold recordUsageCredits specCeilCredits
    rcases Nat.eq_zero_or_pos duration_s with h0 | h0
    · subst h0; norm_num
    · rw [if_pos h0]
      rcases Nat.eq_zero_or_pos (duration_s % 60) with h | h
      · rw [if_pos h]; omega
      · rw [if_neg (by omega)]; omega

/-! ## Claim C5 — the file-size gate -/

/-- Claim C5: whenever the estimated file size in MB exceeds the plan's
`max_file_size_mb`, `check_usage_limits` returns a decision with
`can_process = False` and a blocking reason naming the file-size limit,
regardless of the account's ledger (credits), concurrency, or duration. -/
theorem file_size_gate_blocks (plan : PlanLimits) (cd today : PyDate) (uid : Nat)
    (ledger : List UsageRecord) (conc dur bytes : Nat) (resp : UsageCheckResponse)
    (hck : check_usage_limits plan cd today uid ledger conc dur bytes = some resp)
    (hgt : file_size_mb bytes > (plan.max_file_size_mb : ℚ)) :
    resp.can_process = false ∧
      resp.blocking_reason =
        some (BlockReason.fileSize (file_size_mb bytes) plan.max_file_size_mb) := by
  unfold check_usage_limits at hck
  cases hu : get_current_usage plan cd today uid ledger conc with
  | none => rw [hu] at hck; exact absurd hck (by simp)
  | some u =>
    rw [hu] at hck
    simp only [if_pos hgt] at hck
    obtain rfl := Option.some.inj hck
    exact ⟨rfl, rfl⟩

/-- Witness for C5: a free-plan account (25MB limit) with an empty ledger
(all 30 credits available) requesting a 30MB file is rejected for file
size. -/
theorem file_size_gate_blocks_witness :
    file_size_mb 31457280 > ((freePlan.max_file_size_mb : Nat) : ℚ) ∧
    ∃ resp, check_usage_limits freePlan ⟨2025, 1, 10⟩ ⟨2025, 3, 20⟩ 1 [] 0 60 31457280 =
        some resp ∧
      resp.can_process = false ∧
      resp.blocking_reason =
        some (BlockReason.fileSize (file_size_mb 31457280) freePlan.max_file_size_mb) := by
  have hbp : get_user_billing_period ⟨2025, 1, 10⟩ ⟨2025, 3, 20⟩ =
      some (⟨2025, 3, 10⟩, ⟨2025, 4, 9⟩) := by decide
  have hu : get_current_usage freePlan ⟨2025, 1, 10⟩ ⟨2025, 3, 20⟩ 1 [] 0 =
      some { credits_used := 0, credits_total := 30, is_near_limit := false
             is_at_limit := false, concurrent_processing := 0, max_concurrent := 1 } := by
    unfold get_current_usage
    rw [hbp]
    norm_num [ledgerCreditsUsed, freePlan]
  have hgt : file_size_mb 31457280 > ((freePlan.max_file_size_mb : Nat) : ℚ) := by
    norm_num [file_size_mb, freePlan]
  have hck : check_usage_limits freePlan ⟨2025, 1, 10⟩ ⟨2025, 3, 20⟩ 1 [] 0 60 31457280 =
      some { can_process := false, credits_required := 1, credits_available := 30
             credits_after := 29, estimated_cost := 0
             blocking_reason := some (BlockReason.fileSize (file_size_mb 31457280) 25)
             warnings := [], can_process_concurrent := false
             current_concurrent_jobs := 0, max_concurrent_jobs := 1 } := by
    unfold check_usage_limits
    rw [hu]
    simp only [if_pos hgt]
    norm_num [creditsRequiredFor, freePlan]
  exact ⟨hgt, _, hck,
    file_size_gate_blocks freePlan ⟨2025, 1, 10⟩ ⟨2025, 3, 20⟩ 1 [] 0 60 31457280 _ hck hgt⟩

/-! ## Claim C6 — the concurrency gate -/

/-- Claim C6 counterexample: `can_process_concurrent` is *not* equivalent
to "the processing count has reached the cap".  In the file-size-rejection
branch the field is hard-coded to `False`: a free-plan account with 0
processing jobs (below the cap of 1) asking about a 27MB file gets
`can_process_concurrent = False` although `current_concurrent_jobs <
max_concurrent_jobs`. -/
theorem concurrent_flag_false_below_cap :
    ∃ resp, check_usage_limits freePlan ⟨2025, 1, 10⟩ ⟨2025, 3, 20⟩ 1 [] 0 60 28311552 =
        some resp ∧
      resp.current_concurrent_jobs < resp.max_concurrent_jobs ∧
      resp.can_process_concurrent = false := by
  have hbp : get_user_billing_period ⟨2025, 1, 10⟩ ⟨2025, 3, 20⟩ =
      some (⟨2025, 3, 10⟩, ⟨2025, 4, 9⟩) := by decide
  have hu : get_current_usage freePlan ⟨2025, 1, 10⟩ ⟨2025, 3, 20⟩ 1 [] 0 =
      some { credits_used := 0, credits_total := 30, is_near_limit := false
             is_at_limit := false, concurrent_processing := 0, max_concurrent := 1 } := by
    unfold get_current_usage
    rw [hbp]
    norm_num [ledgerCreditsUsed, freePlan]
  have hgt : file_size_mb 28311552 > ((freePlan.max_file_size_mb : Nat) : ℚ) := by
    norm_num [file_size_mb, freePlan]
  have hck : check_usage_limits freePlan ⟨2025, 1, 10⟩ ⟨2025, 3, 20⟩ 1 [] 0 60 28311552 =
      some { can_process := false, credits_required := 1, credits_available := 30
             credits_after := 29, estimated_cost := 0
             blocking_reason := some (BlockReason.fileSize (file_size_mb 28311552) 25)
             warnings := [], can_process_concurrent := false
             current_concurrent_jobs := 0, max_concurrent_jobs := 1 } := by
    unfold check_usage_limits
    rw [hu]
    simp only [if_pos hgt]
    norm_num [creditsRequiredFor, freePlan]
  exact ⟨_, hck, by norm_num, rfl⟩

/-- Claim C6, amended: restricted to requests that pass the file-size
gate, `can_process_concurrent` is false exactly when the account's
`processing` count has reached the plan's `max_concurrent_jobs`, and
whenever the cap is reached the overall decision has `can_process =
False`, independent of the ledger (credits).  In the file-size-rejection
branch, `can_process_concurrent` is instead always `False` (see the
counterexample). -/
theorem concurrency_gate_iff_when_file_ok (plan : PlanLimits) (cd today : PyDate)
    (uid : Nat) (ledger : List UsageRecord) (conc dur bytes : Nat)
    (resp : UsageCheckResponse)
    (hck : check_usage_limits plan cd today uid ledger conc dur bytes = some resp)
    (hle : ¬ file_size_mb bytes > (plan.max_file_size_mb : ℚ)) :
    (resp.can_process_concurrent = false ↔ plan.max_concurrent_jobs ≤ conc) ∧
      (plan.max_concurrent_jobs ≤ conc → resp.can_process = false) := by
  unfold check_usage_limits at hck
  cases hu : get_current_usage plan cd today uid ledger conc with
  | none => rw [hu] at hck; exact absurd hck (by simp)
  | some u =>
    obtain ⟨h1, h2⟩ : u.concurrent_processing = conc ∧
        u.max_concurrent = plan.max_concurrent_jobs := by
      unfold get_current_usage at hu
      cases hbp : get_user_billing_period cd today with
      | none => rw [hbp] at hu; exact absurd hu (by simp)
      | some bp =>
        rw [hbp] at hu
        obtain rfl := Option.some.inj hu
        exact ⟨rfl, rfl⟩
    rw [hu] at hck
    simp only [if_neg hle] at hck
    obtain rfl := Option.some.inj hck
    constructor
    · simp [h1, h2, Nat.not_lt]
    · intro hcap
      have hcpc : decide (u.concurrent_processing < u.max_concurrent) = false := by
        simp [h1, h2, Nat.not_lt, hcap]
      simp [hcpc]

/-- Witness for C6's amended theorem: a pro-plan account (cap 5) with 5
processing jobs, a 1MB file and an empty ledger (ample credits) — the
concurrency flag is false and the overall decision is `can_process =
False`. -/
theorem concurrency_gate_iff_when_file_ok_witness :
    ¬ file_size_mb 1048576 > ((proPlan.max_file_size_mb : Nat) : ℚ) ∧
    ∃ resp, check_usage_limits proPlan ⟨2025, 1, 10⟩ ⟨2025, 3, 20⟩ 1 [] 5 60 1048576 =
        some resp ∧
      resp.can_process_concurrent = false ∧ resp.can_process = false := by
  have hbp : get_user_billing_period ⟨2025, 1, 10⟩ ⟨2025, 3, 20⟩ =
      some (⟨2025, 3, 10⟩, ⟨2025, 4, 9⟩) := by decide
  have hu : get_current_usage proPlan ⟨2025, 1, 10⟩ ⟨2025, 3, 20⟩ 1 [] 5 =
      some { credits_used := 0, credits_total := 500, is_near_limit := false
             is_at_limit := false, concurrent_processing := 5, max_concurrent := 5 } := by
    unfold get_current_usage
    rw [hbp]
    norm_num [ledgerCreditsUsed, proPlan]
  have hle : ¬ file_size_mb 1048576 > ((proPlan.max_file_size_mb : Nat) : ℚ) := by
    norm_num [file_size_mb, proPlan]
  have hck : check_usage_limits proPlan ⟨2025, 1, 10⟩ ⟨2025, 3, 20⟩ 1 [] 5 60 1048576 =
      some { can_process := false, credits_required := 1, credits_available := 500
             credits_after := 499, estimated_cost := 2/25
             blocking_reason := some (BlockReason.concurrentLimit 5)
             warnings := [], can_process_concurrent := false
             current_concurrent_jobs := 5, max_concurrent_jobs := 5 } := by
    unfold check_usage_limits
    rw [hu]
    simp only [if_neg hle]
    norm_num [creditsRequiredFor, proPlan]
  have hmain := concurrency_gate_iff_when_file_ok proPlan ⟨2025, 1, 10⟩ ⟨2025, 3, 20⟩
    1 [] 5 60 1048576 _ hck hle
  refine ⟨hle, _, hck, ?_, ?_⟩
  · exact hmain.1.mpr (by norm_num [proPlan])
  · exact hmain.2 (by norm_num [proPlan])
/-! ## Claim C7 — overage admission -/

/-- Claim C7: when the request passes the file-size gate and the
concurrency cap, and the required credits exceed the available credits:
on a plan that allows overage the decision is admissible with a warning
carrying the number of overage credits, and `credits_after =
credits_available - credits_required` is non-positive; on a plan without
overage the decision is blocked with the insufficient-credits reason. -/
theorem overage_admission_and_insufficient_block (plan : PlanLimits)
    (cd today : PyDate) (uid : Nat) (ledger : List UsageRecord)
    (conc dur bytes : Nat) (resp : UsageCheckResponse)
    (hck : check_usage_limits plan cd today uid ledger conc dur bytes = some resp)
    (hle : ¬ file_size_mb bytes > (plan.max_file_size_mb : ℚ))
    (hconc : conc < plan.max_concurrent_jobs)
    (hcred : (resp.credits_required : Int) > resp.credits_available) :
    (plan.allows_overage = true →
      resp.can_process = true ∧
      UsageWarning.overage ((resp.credits_required : Int) - resp.credits_available) ∈
        resp.warnings ∧
      resp.credits_after = resp.credits_available - (resp.credits_required : Int) ∧
      resp.credits_after ≤ 0) ∧
    (plan.allows_overage = false →
      resp.can_process = false ∧
      resp.blocking_reason =
        some (BlockReason.insufficientCredits resp.credits_required resp.credits_available)) := by
  unfold check_usage_limits at hck
  cases hu : get_current_usage plan cd today uid ledger conc with
  | none => rw [hu] at hck; exact absurd hck (by simp)
  | some u =>
    obtain ⟨h1, h2⟩ : u.concurrent_processing = conc ∧
        u.max_concurrent = plan.max_concurrent_jobs := by
      unfold get_current_usage at hu
      cases hbp : get_user_billing_period cd today with
      | none => rw [hbp] at hu; exact absurd hu (by simp)
      | some bp =>
        rw [hbp] at hu
        obtain rfl := Option.some.inj hu
        exact ⟨rfl, rfl⟩
    rw [hu] at hck
    simp only [if_neg hle] at hck
    obtain rfl := Option.some.inj hck
    dsimp only at hcred ⊢
    have hcpc : decide (u.concurrent_processing < u.max_concurrent) = true := by
      simp [h1, h2, hconc]
    rw [if_pos hcred, hcpc]
    constructor
    · intro hov
      rw [hov]
      refine ⟨rfl, ?_, rfl, by omega⟩
      split <;> simp
    · intro hov
      rw [hov]
      exact ⟨rfl, rfl⟩

/-- Witness for C7: the spec's Scenario B — a starter-plan account
(150 credits, overage allowed) with 140 credits used requesting 20 credits
(1200 s) and a 5MB file is admitted with an overage warning for 10
credits and `credits_after = -10`. -/
theorem overage_admission_witness :
    ∃ resp, check_usage_limits starterPlan ⟨2025, 1, 10⟩ ⟨2025, 3, 20⟩ 1
        [transcriptionRow 1 8400 ⟨2025, 3, 10⟩ ⟨2025, 4, 9⟩] 0 1200 5242880 =
        some resp ∧
      resp.can_process = true ∧
      UsageWarning.overage 10 ∈ resp.warnings ∧
      resp.credits_after = -10 ∧ resp.credits_after ≤ 0 := by
  have hbp : get_user_billing_period ⟨2025, 1, 10⟩ ⟨2025, 3, 20⟩ =
      some (⟨2025, 3, 10⟩, ⟨2025, 4, 9⟩) := by decide
  have hu : get_current_usage starterPlan ⟨2025, 1, 10⟩ ⟨2025, 3, 20⟩ 1
      [transcriptionRow 1 8400 ⟨2025, 3, 10⟩ ⟨2025, 4, 9⟩] 0 =
      some { credits_used := 140, credits_total := 150, is_near_limit := true
             is_at_limit := false, concurrent_processing := 0, max_concurrent := 2 } := by
    unfold get_current_usage
    rw [hbp]
    norm_num [ledgerCreditsUsed, starterPlan, transcriptionRow, inBillingPeriod,
      recordCredits]
  have hle : ¬ file_size_mb 5242880 > ((starterPlan.max_file_size_mb : Nat) : ℚ) := by
    norm_num [file_size_mb, starterPlan]
  have hck : check_usage_limits starterPlan ⟨2025, 1, 10⟩ ⟨2025, 3, 20⟩ 1
      [transcriptionRow 1 8400 ⟨2025, 3, 10⟩ ⟨2025, 4, 9⟩] 0 1200 5242880 =
      some { can_process := true, credits_required := 20, credits_available := 10
             credits_after := -10, estimated_cost := 2
             blocking_reason := none
             warnings := [UsageWarning.overage 10, UsageWarning.nearLimit]
             can_process_concurrent := true
             current_concurrent_jobs := 0, max_concurrent_jobs := 2 } := by
    unfold check_usage_limits
    rw [hu]
    simp only [if_neg hle]
    norm_num [creditsRequiredFor, starterPlan]
  have hmain := overage_admission_and_insufficient_block starterPlan ⟨2025, 1, 10⟩
    ⟨2025, 3, 20⟩ 1 [transcriptionRow 1 8400 ⟨2025, 3, 10⟩ ⟨2025, 4, 9⟩] 0 1200 5242880
    _ hck (by norm_num [file_size_mb, starterPlan]) (by norm_num [starterPlan])
    (by norm_num)
  obtain ⟨hcp, hmem, hafter, hnonpos⟩ := hmain.1 rfl
  refine ⟨_, hck, hcp, ?_, ?_, hnonpos⟩
  · norm_num
  · norm_num
/-! ## Claim C9 — the near-limit warning -/

/-- Claim C9 counterexample: the near-limit warning is *not* attached
regardless of outcome.  A free-plan account with 25 of 30 credits used
(≥ 80 %, below 100 %) that requests a 30MB file is rejected in the
file-size branch, whose response carries an empty warnings list — the
near-limit warning is lost for file-size rejections. -/
theorem near_limit_warning_missing_on_file_reject :
    ∃ u resp,
      get_current_usage freePlan ⟨2025, 1, 10⟩ ⟨2025, 3, 20⟩ 1
          [transcriptionRow 1 1500 ⟨2025, 3, 10⟩ ⟨2025, 4, 9⟩] 0 = some u ∧
      u.is_near_limit = true ∧ u.is_at_limit = false ∧
      check_usage_limits freePlan ⟨2025, 1, 10⟩ ⟨2025, 3, 20⟩ 1
          [transcriptionRow 1 1500 ⟨2025, 3, 10⟩ ⟨2025, 4, 9⟩] 0 60 31457280 =
        some resp ∧
      resp.warnings = [] := by
  have hbp : get_user_billing_period ⟨2025, 1, 10⟩ ⟨2025, 3, 20⟩ =
      some (⟨2025, 3, 10⟩, ⟨2025, 4, 9⟩) := by decide
  have hu : get_current_usage freePlan ⟨2025, 1, 10⟩ ⟨2025, 3, 20⟩ 1
      [transcriptionRow 1 1500 ⟨2025, 3, 10⟩ ⟨2025, 4, 9⟩] 0 =
      some { credits_used := 25, credits_total := 30, is_near_limit := true
             is_at_limit := false, concurrent_processing := 0, max_concurrent := 1 } := by
    unfold get_current_usage
    rw [hbp]
    norm_num [ledgerCreditsUsed, freePlan, transcriptionRow, inBillingPeriod,
      recordCredits]
  have hgt : file_size_mb 31457280 > ((freePlan.max_file_size_mb : Nat) : ℚ) := by
    norm_num [file_size_mb, freePlan]
  have hck : check_usage_limits freePlan ⟨2025, 1, 10⟩ ⟨2025, 3, 20⟩ 1
      [transcriptionRow 1 1500 ⟨2025, 3, 10⟩ ⟨2025, 4, 9⟩] 0 60 31457280 =
      some { can_process := false, credits_required := 1, credits_available := 5
             credits_after := 4, estimated_cost := 0
             blocking_reason := some (BlockReason.fileSize (file_size_mb 31457280) 25)
             warnings := [], can_process_concurrent := false
             current_concurrent_jobs := 0, max_concurrent_jobs := 1 } := by
    unfold check_usage_limits
    rw [hu]
    simp only [if_pos hgt]
    norm_num [creditsRequiredFor, freePlan]
  exact ⟨_, _, hu, rfl, rfl, hck, rfl⟩

/-- Claim C9, amended: for every decision that passes the file-size gate,
if the account's usage is at least 80 % of the period's allowance and
strictly below 100 % (`is_near_limit` true, `is_at_limit` false), the
returned warnings contain the near-limit warning — whatever the outcome,
including concurrency or insufficient-credit rejections.  Decisions taken
in the file-size-rejection branch instead return an empty warnings list
(see the counterexample). -/
theorem near_limit_warning_when_file_ok (plan : PlanLimits) (cd today : PyDate)
    (uid : Nat) (ledger : List UsageRecord) (conc dur bytes : Nat)
    (u : CurrentUsage) (resp : UsageCheckResponse)
    (hu : get_current_usage plan cd today uid ledger conc = some u)
    (hnear : u.is_near_limit = true) (hat : u.is_at_limit = false)
    (hck : check_usage_limits plan cd today uid ledger conc dur bytes = some resp)
    (hle : ¬ file_size_mb bytes > (plan.max_file_size_mb : ℚ)) :
    UsageWarning.nearLimit ∈ resp.warnings := by
  unfold check_usage_limits at hck
  rw [hu] at hck
  simp only [if_neg hle] at hck
  obtain rfl := Option.some.inj hck
  dsimp only
  rw [hnear, hat]
  simp only [Bool.not_false, Bool.and_self, if_true]
  split <;> simp

/-- Witness for C9's amended theorem: same near-limit free-plan account,
but with a 1MB file (passing the gate); the warning is attached. -/
theorem near_limit_warning_when_file_ok_witness :
    ∃ resp, check_usage_limits freePlan ⟨2025, 1, 10⟩ ⟨2025, 3, 20⟩ 1
        [transcriptionRow 1 1500 ⟨2025, 3, 10⟩ ⟨2025, 4, 9⟩] 0 60 1048576 =
        some resp ∧
      UsageWarning.nearLimit ∈ resp.warnings := by
  have hbp : get_user_billing_period ⟨2025, 1, 10⟩ ⟨2025, 3, 20⟩ =
      some (⟨2025, 3, 10⟩, ⟨2025, 4, 9⟩) := by decide
  have hu : get_current_usage freePlan ⟨2025, 1, 10⟩ ⟨2025, 3, 20⟩ 1
      [transcriptionRow 1 1500 ⟨2025, 3, 10⟩ ⟨2025, 4, 9⟩] 0 =
      some { credits_used := 25, credits_total := 30, is_near_limit := true
             is_at_limit := false, concurrent_processing := 0, max_concurrent := 1 } := by
    unfold get_current_usage
    rw [hbp]
    norm_num [ledgerCreditsUsed, freePlan, transcriptionRow, inBillingPeriod,
      recordCredits]
  have hle : ¬ file_size_mb 1048576 > ((freePlan.max_file_size_mb : Nat) : ℚ) := by
    norm_num [file_size_mb, freePlan]
  have hck : check_usage_limits freePlan ⟨2025, 1, 10⟩ ⟨2025, 3, 20⟩ 1
      [transcriptionRow 1 1500 ⟨2025, 3, 10⟩ ⟨2025, 4, 9⟩] 0 60 1048576 =
      some { can_process := true, credits_required := 1, credits_available := 5
             credits_after := 4, estimated_cost := 0
             blocking_reason := none
             warnings := [UsageWarning.nearLimit]
             can_process_concurrent := true
             current_concurrent_jobs := 0, max_concurrent_jobs := 1 } := by
    unfold check_usage_limits
    rw [hu]
    simp only [if_neg hle]
    norm_num [creditsRequiredFor, freePlan]
  exact ⟨_, hck,
    near_limit_warning_when_file_ok freePlan ⟨2025, 1, 10⟩ ⟨2025, 3, 20⟩ 1
      [transcriptionRow 1 1500 ⟨2025, 3, 10⟩ ⟨2025, 4, 9⟩] 0 60 1048576 _ _
      hu rfl rfl hck hle⟩
/-! ## Claim C1 — duplicate correlation id on `record_usage` -/

/-- Claim C1 (code bug): with a ledger already holding a usage row for
transcription 7, calling `record_usage` again with `transcription_id = 7`
fails with **HTTP 500 "Failed to record usage"** — the
`HTTPException(409, "Usage already recorded for this transcription")`
raised by the duplicate check is swallowed by the blanket
`except Exception` handler and replaced by a 500 — while the ledger is
left untouched (the transaction rolls back, no insert, no partial write).
A call with a fresh correlation id 8 inserts exactly one new row.  The
claim's "Conflict signal" (409) is therefore never what the caller sees. -/
theorem record_usage_duplicate_surfaces_500 :
    record_usage ⟨2025, 1, 10⟩ ⟨2025, 3, 20⟩ 1
        [transcriptionRowWithId 1 7 120 ⟨2025, 3, 10⟩ ⟨2025, 4, 9⟩]
        "transcription" 120 512 0 0 (some 7) =
      ([transcriptionRowWithId 1 7 120 ⟨2025, 3, 10⟩ ⟨2025, 4, 9⟩],
        RecordResult.err 500 "Failed to record usage") ∧
    RecordResult.err 500 "Failed to record usage" ≠
      RecordResult.err 409 "Usage already recorded for this transcription" ∧
    record_usage ⟨2025, 1, 10⟩ ⟨2025, 3, 20⟩ 1
        [transcriptionRowWithId 1 7 120 ⟨2025, 3, 10⟩ ⟨2025, 4, 9⟩]
        "transcription" 180 512 0 0 (some 8) =
      ([transcriptionRowWithId 1 7 120 ⟨2025, 3, 10⟩ ⟨2025, 4, 9⟩,
        insertedUsageRecord 1 "transcription" 180 512 0 0 (some 8)
          (⟨2025, 3, 10⟩, ⟨2025, 4, 9⟩) ⟨2025, 3, 20⟩],
        RecordResult.ok (insertedUsageRecord 1 "transcription" 180 512 0 0 (some 8)
          (⟨2025, 3, 10⟩, ⟨2025, 4, 9⟩) ⟨2025, 3, 20⟩)) := by
  refine ⟨rfl, ?_, rfl⟩
  decide

/-! ## Claim C2 — store-level uniqueness of the correlation id -/

/-- Claim C2 (code bug): the repository's only schema, `get_sql_schema`,
declares no `usage_tracking` table at all — in particular no uniqueness
constraint on a correlation-id column — so the store does not enforce the
no-double-charge invariant.  Consequently, in the check-then-insert
interleaving where two concurrent `record_usage` calls for transcription 7
both run their duplicate check against the initial ledger before either
inserts, both calls succeed and the committed ledger ends up with **two**
usage rows carrying correlation id 7, violating the claimed invariant. -/
theorem no_store_uniqueness_allows_double_record :
    storeEnforcesCorrelationUniqueness get_sql_schema = false ∧
    (get_sql_schema.all fun t => t.name != "usage_tracking") = true ∧
    (interleavedRecordPair ⟨2025, 1, 10⟩ ⟨2025, 3, 20⟩ 1 [] 7 120 180).2.1 = true ∧
    (interleavedRecordPair ⟨2025, 1, 10⟩ ⟨2025, 3, 20⟩ 1 [] 7 120 180).2.2 = true ∧
    correlationCount (interleavedRecordPair ⟨2025, 1, 10⟩ ⟨2025, 3, 20⟩ 1 [] 7 120 180).1 7 = 2 := by
  refine ⟨?_, ?_, rfl, rfl, rfl⟩ <;> decide

/-! ## Claim C10 — the public endpoint's 25MB validation cap -/

/-- Claim C10: for every plan (including paid tiers whose
`max_file_size_mb` is 100/500/1000) and every account state, a request to
the `/usage/check` endpoint with `file_size_bytes` above `25 * 1024 *
1024` is rejected by `UsageCheckRequest` validation (a 422 validation
error) before `check_usage_limits` runs, so no check is ever evaluated
for such a file through this endpoint. -/
theorem endpoint_validation_caps_at_25mb (plan : PlanLimits) (cd today : PyDate)
    (uid : Nat) (ledger : List UsageRecord) (conc : Nat)
    (dur bytes : Int) (hbig : bytes > 25 * 1024 * 1024) :
    (∃ e, checkUsageEndpoint plan cd today uid ledger conc dur bytes =
      Except.error (EndpointError.validation e)) ∧
    starterPlan.max_file_size_mb = 100 ∧
    proPlan.max_file_size_mb = 500 ∧
    enterprisePlan.max_file_size_mb = 1000 := by
  refine ⟨?_, rfl, rfl, rfl⟩
  unfold checkUsageEndpoint validateUsageCheckRequest
  by_cases hd : dur < 1
  · rw [if_pos hd]
    exact ⟨RequestValidationError.durationBelowMinimum dur, rfl⟩
  · rw [if_neg hd, if_neg (by omega), if_pos hbig]
    exact ⟨RequestValidationError.fileSizeAboveMaximum bytes (25 * 1024 * 1024), rfl⟩

/-- Witness for C10: a pro-plan account (500MB plan limit) asking about a
30MB file through the endpoint gets a validation error. -/
theorem endpoint_validation_caps_at_25mb_witness :
    (31457280 : Int) > 25 * 1024 * 1024 ∧
    (∃ e, checkUsageEndpoint proPlan ⟨2025, 1, 10⟩ ⟨2025, 3, 20⟩ 1 [] 0 60 31457280 =
      Except.error (EndpointError.validation e)) :=
  ⟨by norm_num,
    (endpoint_validation_caps_at_25mb proPlan ⟨2025, 1, 10⟩ ⟨2025, 3, 20⟩ 1 [] 0 60
      31457280 (by norm_num)).1⟩
/-! ## Claim C8 — monthly-reset success and idempotency -/

/-- Helper: archiving open-period rows is idempotent — after the first
pass no row of the user has a NULL `billing_period_end` left, so a second
pass changes nothing. -/
lemma archiveOpenPeriods_idem (uid : Nat) (today : PyDate) (ledger : List UsageRecord) :
    archiveOpenPeriods uid today (archiveOpenPeriods uid today ledger) =
      archiveOpenPeriods uid today ledger := by
  unfold archiveOpenPeriods
  rw [List.map_map]
  apply List.map_congr_left
  intro r _
  by_cases h : r.userId = uid ∧ r.billing_period_end = none
  · rw [Function.comp_apply, if_pos h, if_neg (by simp)]
  · rw [Function.comp_apply, if_neg h, if_neg h]

/-- Helper: the `next_reset` computation of `perform_monthly_reset`
succeeds whenever the creation day-of-month is at most 28. -/
lemma computeNextReset_some (cd today : PyDate)
    (hd1 : 1 ≤ cd.day) (hd28 : cd.day ≤ 28)
    (hm1 : 1 ≤ today.month) (hm12 : today.month ≤ 12) :
    ∃ nr, computeNextReset cd today = some nr := by
  unfold computeNextReset
  by_cases hA : today.day ≥ cd.day
  · rw [if_pos hA, mkDate_small today.year today.month cd.day hm1 hm12 hd1 hd28]
    by_cases hle : (PyDate.mk today.year today.month cd.day).chronLe today
    · simp only [hle, if_true]
      by_cases h12 : today.month = 12
      · rw [if_pos h12,
          mkDate_small (today.year + 1) 1 cd.day (by norm_num) (by norm_num) hd1 hd28]
        exact ⟨_, rfl⟩
      · rw [if_neg h12,
          mkDate_small today.year (today.month + 1) cd.day (by omega) (by omega) hd1 hd28]
        exact ⟨_, rfl⟩
    · simp only [Bool.not_eq_true] at hle
      simp only [hle, if_false]
      exact ⟨_, rfl⟩
  · rw [if_neg hA, mkDate_small today.year today.month cd.day hm1 hm12 hd1 hd28]
    exact ⟨_, rfl⟩

/-- Claim C8 counterexample: an account created on January 31 is
*eligible* on 2025-05-31 (its anniversary day-of-month matches and no
ledger period starts today), yet `perform_monthly_reset` fails
(`HTTPException(500)`, modelled as `none`) instead of returning
`reset_successful = True`: the next-reset construction builds the invalid
date June 31.  So not every eligible account's reset succeeds. -/
theorem eligible_reset_fails_day31 :
    find_users_requiring_reset [⟨1, ⟨2025, 1, 31⟩, true⟩] [] ⟨2025, 5, 31⟩ =
      [⟨1, ⟨2025, 1, 31⟩, true⟩] ∧
    perform_monthly_reset freePlan ⟨2025, 1, 31⟩ ⟨2025, 5, 31⟩ 1 [] 0
      "Automated monthly reset" = none := by
  constructor <;> decide

/-- Claim C8, amended: for accounts whose creation day-of-month is at most
28 (e.g. Scenario D's day-15 account) the reset succeeds and is
idempotent: `perform_monthly_reset` returns `reset_successful = True` and
its only ledger effect is archiving open-period rows; invoking it again on
the same day leaves the ledger unchanged (no second allocation) and
reports success again.  Independently, the scheduler's eligibility query
excludes every account that already has a ledger period starting today.
For eligible month-end accounts (creation day 31 with a shorter target
month) the reset instead fails — see the counterexample. -/
theorem reset_succeeds_and_idempotent_when_day_le_28 (plan : PlanLimits)
    (cd today : PyDate) (uid : Nat) (ledger : List UsageRecord) (conc : Nat)
    (reason : String)
    (hd1 : 1 ≤ cd.day) (hd28 : cd.day ≤ 28)
    (hm1 : 1 ≤ today.month) (hm12 : today.month ≤ 12) :
    (∃ resp, perform_monthly_reset plan cd today uid ledger conc reason =
        some (archiveOpenPeriods uid today ledger, resp) ∧
      resp.reset_successful = true ∧
      ∃ resp2, perform_monthly_reset plan cd today uid
          (archiveOpenPeriods uid today ledger) conc reason =
        some (archiveOpenPeriods uid today ledger, resp2) ∧
        resp2.reset_successful = true) ∧
    (∀ (u : UserRow) (l2 : List UsageRecord),
      (∃ r ∈ l2, r.userId = u.id ∧ r.billing_period_start = some today) →
      requiresReset u l2 today = false) := by
  obtain ⟨s, e, hbp, -, -, -⟩ := billing_period_some_of_day_le_28 cd today hd1 hd28 hm1 hm12
  obtain ⟨nr, hnr⟩ := computeNextReset_some cd today hd1 hd28 hm1 hm12
  constructor
  · have hu1 : get_current_usage plan cd today uid ledger conc =
        some { credits_used := ledgerCreditsUsed uid s e ledger
               credits_total := plan.credits_per_month
               is_near_limit := decide ((ledgerCreditsUsed uid s e ledger : ℚ) ≥
                 (plan.credits_per_month : ℚ) * 0.8)
               is_at_limit := decide (ledgerCreditsUsed uid s e ledger ≥
                 plan.credits_per_month)
               concurrent_processing := conc
               max_concurrent := plan.max_concurrent_jobs } := by
      unfold get_current_usage
      rw [hbp]
    have hu2 : get_current_usage plan cd today uid
        (archiveOpenPeriods uid today ledger) conc =
        some { credits_used := ledgerCreditsUsed uid s e (archiveOpenPeriods uid today ledger)
               credits_total := plan.credits_per_month
               is_near_limit := decide ((ledgerCreditsUsed uid s e
                   (archiveOpenPeriods uid today ledger) : ℚ) ≥
                 (plan.credits_per_month : ℚ) * 0.8)
               is_at_limit := decide (ledgerCreditsUsed uid s e
                   (archiveOpenPeriods uid today ledger) ≥
                 plan.credits_per_month)
               concurrent_processing := conc
               max_concurrent := plan.max_concurrent_jobs } := by
      unfold get_current_usage
      rw [hbp]
    have hp1 : perform_monthly_reset plan cd today uid ledger conc reason =
        some (archiveOpenPeriods uid today ledger,
          { userId := uid
            previous_credits_used := ledgerCreditsUsed uid s e ledger
            new_credits_available := plan.credits_per_month
            reset_date := today, next_reset_date := nr
            billing_period_start := today, billing_period_end := nr.predDay
            reset_successful := true, reset_reason := reason }) := by
      unfold perform_monthly_reset
      rw [hu1, hnr]
    have hp2 : perform_monthly_reset plan cd today uid
        (archiveOpenPeriods uid today ledger) conc reason =
        some (archiveOpenPeriods uid today ledger,
          { userId := uid
            previous_credits_used := ledgerCreditsUsed uid s e
              (archiveOpenPeriods uid today ledger)
            new_credits_available := plan.credits_per_month
            reset_date := today, next_reset_date := nr
            billing_period_start := today, billing_period_end := nr.predDay
            reset_successful := true, reset_reason := reason }) := by
      unfold perform_monthly_reset
      rw [hu2, hnr, archiveOpenPeriods_idem]
    exact ⟨_, hp1, rfl, _, hp2, rfl⟩
  · rintro u l2 ⟨r, hrmem, hruid, hrstart⟩
    have hhas : hasPeriodStartingToday u.id l2 today = true := by
      unfold hasPeriodStartingToday
      rw [List.any_eq_true]
      refine ⟨r, hrmem, ?_⟩
      rw [hrstart, hruid]
      simp [chronLe_refl]
    unfold requiresReset
    rw [hhas]
    simp

/-- Witness for C8's amended theorem: Scenario D — account created
2025-01-15, today 2025-02-15; the reset succeeds, a second invocation on
the same day leaves the ledger unchanged and reports success, and an
account with a ledger period starting today is excluded from the
scheduler's eligibility. -/
theorem reset_succeeds_and_idempotent_witness :
    (∃ resp, perform_monthly_reset freePlan ⟨2025, 1, 15⟩ ⟨2025, 2, 15⟩ 1 [] 0
        "Automated monthly reset" =
        some (archiveOpenPeriods 1 ⟨2025, 2, 15⟩ [], resp) ∧
      resp.reset_successful = true ∧
      ∃ resp2, perform_monthly_reset freePlan ⟨2025, 1, 15⟩ ⟨2025, 2, 15⟩ 1
          (archiveOpenPeriods 1 ⟨2025, 2, 15⟩ []) 0 "Automated monthly reset" =
        some (archiveOpenPeriods 1 ⟨2025, 2, 15⟩ [], resp2) ∧
        resp2.reset_successful = true) ∧
    requiresReset ⟨1, ⟨2025, 1, 15⟩, true⟩
      [transcriptionRow 1 60 ⟨2025, 2, 15⟩ ⟨2025, 3, 14⟩] ⟨2025, 2, 15⟩ = false := by
  have h := reset_succeeds_and_idempotent_when_day_le_28 freePlan ⟨2025, 1, 15⟩
    ⟨2025, 2, 15⟩ 1 [] 0 "Automated monthly reset"
    (by norm_num) (by norm_num) (by norm_num) (by norm_num)
  refine ⟨h.1, h.2 ⟨1, ⟨2025, 1, 15⟩, true⟩ _ ?_⟩
  exact ⟨transcriptionRow 1 60 ⟨2025, 2, 15⟩ ⟨2025, 3, 14⟩, by simp, rfl, rfl⟩
